import Mathlib

/-!
Verification of the TallyExt accounting adapter (`src/lib/tally-api.ts`,
`src/types/index.ts`, and the two earlier adapter variants shipped in the
repository). The TypeScript source is shallowly embedded: JavaScript numbers
are modelled as `ℚ`, DOM documents as lists (in document order) of element
nodes carrying a tag and a `textContent`, and fallible operations as
`Except`. Each embedded definition mirrors one function or code block of the
source.
-/

namespace TallyExt

/-! ## String helpers

`strContains hay pat` mirrors JavaScript `hay.includes(pat)`: `pat` occurs
as a contiguous substring of `hay`. -/

/-- Boolean list-prefix test, character by character. -/
def isPrefixL : List Char → List Char → Bool
  | [], _ => true
  | _ :: _, [] => false
  | a :: as, b :: bs => a == b && isPrefixL as bs

/-- Boolean contiguous-sublist test: does the pattern occur at some
position of the haystack? -/
def isInfixL (pat : List Char) : List Char → Bool
  | [] => isPrefixL pat []
  | c :: rest => isPrefixL pat (c :: rest) || isInfixL pat rest

/-- JavaScript `hay.includes(pat)`. -/
def strContains (hay pat : String) : Bool :=
  isInfixL pat.data hay.data

/-- JavaScript `toUpperCase()` (the source only compares ASCII state
codes and tax-ledger names). -/
def toUpperStr (s : String) : String :=
  ⟨s.data.map Char.toUpper⟩

/-- An ASCII whitespace character, as trimmed by JavaScript `trim()`. -/
def isWhite (c : Char) : Bool :=
  c == ' ' || c == '\t' || c == '\n' || c == '\r'

/-- JavaScript `s.trim()`: strip leading and trailing whitespace. -/
def jsTrim (s : String) : String :=
  ⟨((s.data.dropWhile isWhite).reverse.dropWhile isWhite).reverse⟩

/-- Split a character list at newlines; `[[]]` for the empty input, as
with JavaScript `''.split('\n')`. -/
def splitNl : List Char → List (List Char)
  | [] => [[]]
  | c :: rest =>
    if c == '\n' then [] :: splitNl rest
    else
      match splitNl rest with
      | [] => [[c]]
      | h :: t => (c :: h) :: t

/-- JavaScript `s.split('\n')`. -/
def splitLines (s : String) : List String :=
  (splitNl s.data).map (fun l => ⟨l⟩)

theorem isPrefixL_append (l r : List Char) : isPrefixL l (l ++ r) = true := by
  induction l with
  | nil => rfl
  | cons a as ih => simp [isPrefixL, ih]

theorem isInfixL_append_left (pat post : List Char) :
    isInfixL pat (pat ++ post) = true := by
  cases pat with
  | nil =>
    cases post with
    | nil => rfl
    | cons b bs => simp [isInfixL, isPrefixL]
  | cons a as =>
    simp [isInfixL, isPrefixL, isPrefixL_append]

theorem isInfixL_append_pre (pre pat : List Char) :
    isInfixL pat (pre ++ pat) = true := by
  induction pre with
  | nil => simpa using isInfixL_append_left pat []
  | cons a t ih => simp [isInfixL, ih]

theorem string_data_append (s t : String) : (s ++ t).data = s.data ++ t.data := rfl

/-- A string contains its own trailing segment. -/
theorem strContains_append_right (s t : String) : strContains (s ++ t) t = true := by
  simpa [strContains, string_data_append] using isInfixL_append_pre s.data t.data

/-- A string contains its own leading segment. -/
theorem strContains_append_left (s t : String) : strContains (s ++ t) s = true := by
  simpa [strContains, string_data_append] using isInfixL_append_left s.data t.data

/-! ## Document model

A parsed XML response is modelled as the list of its element nodes in
document order (preorder), each carrying its tag name and its
`textContent`. `querySelector('A, B')` is the first node in document order
whose tag is `A` or `B`, which on this flattened form is `List.find?`. -/

/-- One element node of a parsed response document: tag name and
`textContent`. -/
structure XNode where
  tag : String
  text : String
deriving DecidableEq

/-- `xmlDoc.querySelector('LINEERROR, ERROR')` in `sendTallyRequest`:
the first error-marker node in document order, if any. -/
def sendTallyErr (nodes : List XNode) : Option XNode :=
  nodes.find? (fun n => n.tag == "LINEERROR" || n.tag == "ERROR")

/-- The response-body check of `sendTallyRequest` (tally-api.ts lines
29-34): if any `LINEERROR` or `ERROR` node is present the request throws
`Tally error: <first marker textContent>`; otherwise the parsed document
is returned to the caller. -/
def sendTallyCheck (nodes : List XNode) : Except String (List XNode) :=
  match sendTallyErr nodes with
  | some e => .error ("Tally error: " ++ e.text)
  | none => .ok nodes

/-! ## Invoice-creation acknowledgement parsing

Embeds the response handling of `generateNewInvoice` (tally-api.ts lines
322-331): the document has already passed `sendTallyCheck`; the first
`CREATED`/`ALTERED` node must have text `"1"`; the invoice number is the
trimmed text of the first `VOUCHERNUMBER` node, falling back to the
client's provisional number when that node is absent or trims to empty. -/

/-- The failure message built at tally-api.ts lines 327-328. -/
def invoiceFailMsg (nodes : List XNode) : String :=
  let errs := String.intercalate ", "
    ((nodes.filter (fun n => n.tag == "LINEERROR" || n.tag == "ERROR")).map (·.text))
  "Tally failed to generate invoice. " ++
    (if errs = "" then "No details provided. Check Tally.imp log for more info." else errs)

/-- Response handling of `generateNewInvoice`: `sendTallyRequest`'s error
check followed by the created-marker check and voucher-number extraction.
Returns the extracted invoice number on success. -/
def parseInvoiceResp (nodes : List XNode) (provisional : String) :
    Except String String :=
  match sendTallyCheck nodes with
  | .error m => .error m
  | .ok d =>
    match d.find? (fun n => n.tag == "CREATED" || n.tag == "ALTERED") with
    | none => .error (invoiceFailMsg d)
    | some c =>
      if c.text = "1" then
        .ok (match d.find? (fun n => n.tag == "VOUCHERNUMBER") with
             | some nn => if jsTrim nn.text = "" then provisional else jsTrim nn.text
             | none => provisional)
      else .error (invoiceFailMsg d)

/-! ## Company-list parsing

Embeds `getTallyCompanies` (tally-api.ts lines 79-108). Besides the
flattened node list, the model keeps the `COMPANY` elements with the
`textContent` of their first `NAME`/`ID` descendants (the nested shape the
fallback branch probes), and the serialized response text used by the
`<NOCONNECTION` check. -/

/-- A discovered company: identifier and display name. -/
structure Company where
  id : String
  name : String
deriving DecidableEq

/-- A `COMPANY` element as seen by the nested fallback branch:
`textContent` of its first `NAME` descendant and of its first `ID`
descendant, when present. -/
structure CompanyNode where
  nameSub : Option String
  idSub : Option String
deriving DecidableEq

/-- A company-listing response: all element nodes in document order, the
`COMPANY` elements with their sub-node lookups, and the serialized
document text (`documentElement.outerHTML`). -/
structure CompaniesDoc where
  nodes : List XNode
  companyNodes : List CompanyNode
  raw : String

/-- The company extraction of `getTallyCompanies` (lines 81-101): the flat
`COMPANYNAME, NAME` query, or, when that is empty and a `COMPANY` node
exists, the nested per-`COMPANY` probing. -/
def extractCompanies (d : CompaniesDoc) : List Company :=
  let flat := d.nodes.filter (fun n => n.tag == "COMPANYNAME" || n.tag == "NAME")
  if flat.isEmpty && !d.companyNodes.isEmpty then
    d.companyNodes.filterMap (fun cn =>
      cn.nameSub.map (fun nm =>
        { id := match cn.idSub with
                | some t => if jsTrim t = "" then jsTrim nm else jsTrim t
                | none => jsTrim nm
          name := jsTrim nm }))
  else
    flat.filterMap (fun n =>
      if jsTrim n.text = "" then none else some { id := jsTrim n.text, name := jsTrim n.text })

/-- The not-connected failure message of `getTallyCompanies` line 104. -/
def notConnectedMsg : String :=
  "Tally is not connected or no company is loaded. Please ensure Tally is running with a company open."

/-- `getTallyCompanies` after the HTTP round trip: gateway error check,
company extraction, and the empty-plus-`<NOCONNECTION` failure (lines
79-108). -/
def getCompanies (d : CompaniesDoc) : Except String (List Company) :=
  match sendTallyCheck d.nodes with
  | .error m => .error m
  | .ok _ =>
    let companies := extractCompanies d
    if companies.isEmpty && strContains d.raw "<NOCONNECTION" then
      .error notConnectedMsg
    else .ok companies

/-! ## Customer lookup parsing

Embeds `findCustomerByName` (tally-api.ts lines 139-166). The matched
`LEDGER` record is modelled by the `textContent` of each probed sub-node,
`none` when the sub-node is absent. -/

/-- The customer record of `src/types/index.ts`. Optional TypeScript
fields are `Option String`. -/
structure Customer where
  id : String
  name : String
  phoneNumber : Option String := none
  email : Option String := none
  addressLine1 : String
  addressLine2 : Option String := none
  city : String
  state : String
  pincode : String
  gstin : Option String := none
  ledgerName : String
  group : String
  creditAccount : String
  companyId : Option String := none
deriving DecidableEq

/-- The probed sub-nodes of the matched `LEDGER` element: `textContent`
of the first descendant with each tag, `none` when absent. -/
structure LedgerRec where
  name : Option String := none
  address : Option String := none
  pincode : Option String := none
  email : Option String := none
  phone : Option String := none
  mobile : Option String := none
  gstin : Option String := none
  parent : Option String := none
  statename : Option String := none
deriving DecidableEq

/-- The `getText` helper of `findCustomerByName` line 145:
`node?.textContent?.trim() || ''`. -/
def getText (o : Option String) : String :=
  match o with
  | none => ""
  | some t => jsTrim t

/-- Line 147: the multi-line `ADDRESS` text split on newlines, trimmed,
blank lines dropped. -/
def addressLines (rec : LedgerRec) : List String :=
  ((splitLines (getText rec.address)).map (fun line => jsTrim line)).filter
    (fun line => line ≠ "")

/-- The customer assembled by `findCustomerByName` lines 149-164 from a
matched ledger record. -/
def findCustomerParse (rec : LedgerRec) (companyName : String) : Customer :=
  let lines := addressLines rec
  { id := getText rec.name
    name := getText rec.name
    ledgerName := getText rec.name
    group := "Sundry Debtors"
    addressLine1 := lines.getD 0 ""
    addressLine2 := some (lines.getD 1 "")
    city := lines.getD 2 ""
    state := if getText rec.statename = "" then lines.getD 3 "" else getText rec.statename
    pincode := getText rec.pincode
    email := some (getText rec.email)
    phoneNumber := some (if getText rec.phone = "" then getText rec.mobile else getText rec.phone)
    gstin := some (getText rec.gstin)
    creditAccount := ""
    companyId := some companyName }

/-- `generateNewInvoice` line 245: `customer.creditAccount || 'Sales'`. -/
def salesLedgerName (c : Customer) : String :=
  if c.creditAccount = "" then "Sales" else c.creditAccount

/-! ## Invoice line items

Embeds the line-item processing of `generateNewInvoice` (tally-api.ts
lines 247-252): each amount is `quantity * rate` and the running subtotal
sums them. `now` stands for `Date.now()` used in the generated ids. -/

/-- A processed invoice line item (`InvoiceItem` of `src/types/index.ts`). -/
structure InvoiceItem where
  id : String
  itemName : String
  hsnSac : Option String := none
  quantity : ℚ
  rate : ℚ
  unit : String
  amount : ℚ
deriving DecidableEq

/-- A line item as submitted to `generateNewInvoice`
(`Omit<InvoiceItem, 'id' | 'amount'>`). -/
structure InvoiceItemInput where
  itemName : String
  hsnSac : Option String := none
  quantity : ℚ
  rate : ℚ
  unit : String
deriving DecidableEq

/-- One step of the `data.items.map((item, index) => ...)` body. -/
def mkProcessedItem (now : Nat) (index : Nat) (it : InvoiceItemInput) : InvoiceItem :=
  { id := "item_" ++ toString now ++ "_" ++ toString index
    itemName := it.itemName
    hsnSac := it.hsnSac
    quantity := it.quantity
    rate := it.rate
    unit := it.unit
    amount := it.quantity * it.rate }

/-- The indexed map of tally-api.ts line 248. -/
def processGo (now : Nat) : Nat → List InvoiceItemInput → List InvoiceItem
  | _, [] => []
  | i, it :: rest => mkProcessedItem now i it :: processGo now (i + 1) rest

/-- Lines 247-252: the accumulated subtotal and the processed item list. -/
def processItems (now : Nat) (items : List InvoiceItemInput) : ℚ × List InvoiceItem :=
  (items.foldl (fun acc it => acc + it.quantity * it.rate) 0, processGo now 0 items)

/-! ## Tax calculation (the two earlier adapter variants)

The current `src/lib/tally-api.ts` computes no tax client-side; the GST
split lives in the two earlier variants shipped in the repository:
`unnamed/part_001` lines 276-292 (case-insensitive comparison against the
fixed supplier state) and `unnamed/part_002` lines 114-127 (strict
equality). Both use the fixed 18% rate and supplier state `"MH"`. -/

/-- The combined outcome of one tax computation: amounts, rate
percentages, and the invoice total `subTotal + cgst + sgst + igst`. -/
structure TaxOut where
  cgstAmount : ℚ
  sgstAmount : ℚ
  igstAmount : ℚ
  cgstRatePct : ℚ
  sgstRatePct : ℚ
  igstRatePct : ℚ
  totalAmount : ℚ
deriving DecidableEq

/-- The fixed supplier state of both variants. -/
def supplierState : String := "MH"

/-- The fixed 18% GST rate of both variants. -/
def gstRate : ℚ := 18 / 100

/-- part_001 line 281:
`customer.state && customer.state.toUpperCase() !== supplierState.toUpperCase()`. -/
def isInterStateV1 (state : String) : Bool :=
  !(state == "") && !(toUpperStr state == toUpperStr supplierState)

/-- The GST block of `generateNewInvoice` in part_001 (lines 276-292):
case-insensitive state comparison; inter-state yields a single IGST
component, otherwise an equal CGST/SGST split; total is
`subTotal + cgstAmount + sgstAmount + igstAmount`. -/
def taxCalcV1 (subTotal : ℚ) (state : String) : TaxOut :=
  let inter := isInterStateV1 state
  let cgstAmount := if inter then 0 else subTotal * (gstRate / 2)
  let sgstAmount := if inter then 0 else subTotal * (gstRate / 2)
  let igstAmount := if inter then subTotal * gstRate else 0
  { cgstAmount := cgstAmount
    sgstAmount := sgstAmount
    igstAmount := igstAmount
    cgstRatePct := if inter then 0 else gstRate / 2 * 100
    sgstRatePct := if inter then 0 else gstRate / 2 * 100
    igstRatePct := if inter then gstRate * 100 else 0
    totalAmount := subTotal + cgstAmount + sgstAmount + igstAmount }

/-- The GST block of `generateNewInvoice` in part_002 (lines 114-127):
strict `customer.state === supplierState` comparison, otherwise as in
`taxCalcV1`. The rate-percentage fields mirror the invoice assembly at
part_002 lines 136-141. -/
def taxCalcV2 (subTotal : ℚ) (state : String) : TaxOut :=
  let same := state == supplierState
  let cgstAmount := if same then subTotal * (gstRate / 2) else 0
  let sgstAmount := if same then subTotal * (gstRate / 2) else 0
  let igstAmount := if same then 0 else subTotal * gstRate
  { cgstAmount := cgstAmount
    sgstAmount := sgstAmount
    igstAmount := igstAmount
    cgstRatePct := if same then gstRate / 2 * 100 else 0
    sgstRatePct := if same then gstRate / 2 * 100 else 0
    igstRatePct := if same then 0 else gstRate * 100
    totalAmount := subTotal + cgstAmount + sgstAmount + igstAmount }

/-! ## Invoice tax recomputation (`fetchInvoiceDetails`)

Embeds tally-api.ts lines 380-447. The fetched `VOUCHER` element is
modelled by its `PARTYLEDGERNAME` text, its `ALLLEDGERENTRIES.LIST`
entries (ledger name and parsed amount), its `ALLINVENTORYENTRIES.LIST`
amounts, and its `LEDGERENTRIES.LIST` entries (ledger name, parsed
amount, and explicit `GSTRATEVAL` when present). `none` stands for an
absent sub-node or an empty `textContent`. -/

/-- One `LEDGERENTRIES.LIST` entry of the fetched voucher. -/
structure LEntry where
  name : Option String := none
  amount : Option ℚ := none
  rateText : Option ℚ := none
deriving DecidableEq

/-- The fetched `VOUCHER` element. -/
structure ParsedVoucher where
  partyLedgerName : Option String := none
  allLedgerEntries : List (Option String × Option ℚ) := []
  inventoryAmounts : List (Option ℚ) := []
  ledgerEntries : List LEntry := []

/-- The tax bucket a ledger-entry name falls into. -/
inductive TaxKind where
  | cgst
  | sgst
  | igst
deriving DecidableEq

/-- The `if/else if` chain of lines 416-428 on
`ledgerName?.toUpperCase()`: `CGST` substring first, then
`SGST`/`UTGST`, then `IGST`; an absent name matches nothing. -/
def kindOf (name : Option String) : Option TaxKind :=
  match name with
  | none => none
  | some n =>
    let u := toUpperStr n
    if strContains u "CGST" then some .cgst
    else if strContains u "SGST" || strContains u "UTGST" then some .sgst
    else if strContains u "IGST" then some .igst
    else none

/-- Lines 394-402: the party-ledger total, `Math.abs` of the amount of
the last `ALLLEDGERENTRIES.LIST` entry whose ledger name equals
`PARTYLEDGERNAME` and whose amount text is non-empty; `0` when none
matches. -/
def partyTotal (v : ParsedVoucher) : ℚ :=
  v.allLedgerEntries.foldl
    (fun acc e =>
      if e.1 = v.partyLedgerName then
        match e.2 with
        | some a => |a|
        | none => acc
      else acc)
    0

/-- Lines 404-409: the inventory subtotal, summing every present
`ALLINVENTORYENTRIES.LIST` amount. -/
def invSubTotal (v : ParsedVoucher) : ℚ :=
  v.inventoryAmounts.foldl
    (fun acc a =>
      match a with
      | some x => acc + x
      | none => acc)
    0

/-- The running tax state of the lines 411-429 loop: `none` encodes the
`undefined` initial value of each field. -/
structure TaxAcc where
  cgstA : Option ℚ := none
  sgstA : Option ℚ := none
  igstA : Option ℚ := none
  cgstR : Option ℚ := none
  sgstR : Option ℚ := none
  igstR : Option ℚ := none
deriving DecidableEq

/-- JavaScript `toFixed(2)` followed by `parseFloat`: round to two
decimal places. -/
def toFixed2 (q : ℚ) : ℚ :=
  (⌊q * 100 + 1 / 2⌋ : ℚ) / 100

/-- The rate update of each bucket branch: an explicit `GSTRATEVAL` wins;
otherwise, when the subtotal and the entry amount are positive, the
effective percentage `amount / subTotal * 100` rounded to two decimals;
otherwise the previous value is kept. -/
def rateUpd (st : ℚ) (old : Option ℚ) (e : LEntry) : Option ℚ :=
  match e.rateText with
  | some r => some r
  | none =>
    if 0 < st ∧ 0 < e.amount.getD 0 then some (toFixed2 (e.amount.getD 0 / st * 100))
    else old

/-- One iteration of the lines 411-429 loop. -/
def taxStep (st : ℚ) (acc : TaxAcc) (e : LEntry) : TaxAcc :=
  match kindOf e.name with
  | some .cgst =>
    { acc with cgstA := some (acc.cgstA.getD 0 + e.amount.getD 0), cgstR := rateUpd st acc.cgstR e }
  | some .sgst =>
    { acc with sgstA := some (acc.sgstA.getD 0 + e.amount.getD 0), sgstR := rateUpd st acc.sgstR e }
  | some .igst =>
    { acc with igstA := some (acc.igstA.getD 0 + e.amount.getD 0), igstR := rateUpd st acc.igstR e }
  | none => acc

/-- The whole lines 411-429 loop. -/
def taxFold (st : ℚ) (l : List LEntry) : TaxAcc :=
  l.foldl (taxStep st) {}

/-- The partial invoice returned by `fetchInvoiceDetails` (lines 438-447). -/
structure PartialInv where
  subTotal : ℚ
  totalAmount : ℚ
  cgstAmount : Option ℚ
  sgstAmount : Option ℚ
  igstAmount : Option ℚ
  cgstRate : Option ℚ
  sgstRate : Option ℚ
  igstRate : Option ℚ
deriving DecidableEq

/-- The final tax state after the lines 411-429 loop (the loop reads the
subtotal already accumulated at lines 404-409). -/
def fdAcc (v : ParsedVoucher) : TaxAcc :=
  taxFold (invSubTotal v) v.ledgerEntries

/-- The sum `(cgstAmount || 0) + (sgstAmount || 0) + (igstAmount || 0)`
used by both fallbacks. -/
def fdTaxes (v : ParsedVoucher) : ℚ :=
  (fdAcc v).cgstA.getD 0 + (fdAcc v).sgstA.getD 0 + (fdAcc v).igstA.getD 0

/-- Lines 431-433: when no party-ledger total was found and the
inventory subtotal is positive, the total falls back to
`subTotal + taxes`. -/
def fdTotal (v : ParsedVoucher) : ℚ :=
  if partyTotal v = 0 ∧ 0 < invSubTotal v then invSubTotal v + fdTaxes v
  else partyTotal v

/-- Lines 434-436: when the inventory subtotal is zero and the (possibly
updated) total is positive, the subtotal falls back to
`totalAmount - taxes`. -/
def fdSubTotal (v : ParsedVoucher) : ℚ :=
  if invSubTotal v = 0 ∧ 0 < fdTotal v then fdTotal v - fdTaxes v
  else invSubTotal v

/-- `fetchInvoiceDetails` on a fetched voucher (lines 385-447). -/
def fetchDetails (v : ParsedVoucher) : PartialInv :=
  { subTotal := fdSubTotal v
    totalAmount := fdTotal v
    cgstAmount := (fdAcc v).cgstA
    sgstAmount := (fdAcc v).sgstA
    igstAmount := (fdAcc v).igstA
    cgstRate := (fdAcc v).cgstR
    sgstRate := (fdAcc v).sgstR
    igstRate := (fdAcc v).igstR }

/-! ## Invoice assembly (`generateNewInvoice`, current variant)

Embeds tally-api.ts lines 334-351: the returned invoice's numeric fields,
built from the client-side subtotal and the best-effort
`fetchInvoiceDetails` result (`none` when that fetch failed or found no
voucher). `x || y` on numbers falls back on `0`. -/

/-- JavaScript `a?.f || b` for numeric `f`: the fetched value unless it
is absent or `0`. -/
def jsOr (a : Option ℚ) (b : ℚ) : ℚ :=
  match a with
  | none => b
  | some x => if x = 0 then b else x

/-- The numeric fields of the invoice returned by `generateNewInvoice`. -/
structure InvoiceTotals where
  subTotal : ℚ
  totalAmount : ℚ
  cgstAmount : Option ℚ
  sgstAmount : Option ℚ
  igstAmount : Option ℚ
  cgstRate : Option ℚ
  sgstRate : Option ℚ
  igstRate : Option ℚ
deriving DecidableEq

/-- Lines 334-351 restricted to the numeric fields: `subTotal` and
`totalAmount` prefer the fetched values when non-zero (the client-side
`finalTotalAmount` equals the client subtotal, line 277); the six tax
fields are copied from the fetch result. -/
def invoiceTotals (clientSub : ℚ) (fetched : Option PartialInv) : InvoiceTotals :=
  { subTotal := jsOr (fetched.map (·.subTotal)) clientSub
    totalAmount := jsOr (fetched.map (·.totalAmount)) clientSub
    cgstAmount := fetched.bind (·.cgstAmount)
    sgstAmount := fetched.bind (·.sgstAmount)
    igstAmount := fetched.bind (·.igstAmount)
    cgstRate := fetched.bind (·.cgstRate)
    sgstRate := fetched.bind (·.sgstRate)
    igstRate := fetched.bind (·.igstRate) }

/-- `generateNewInvoice` end to end on the numeric fields: line items
processed client-side, then combined with the parsed voucher fetched
back from Tally (`none` when `fetchInvoiceDetails` returned `null`). -/
def generateInvoiceTotals (now : Nat) (items : List InvoiceItemInput)
    (fetched : Option ParsedVoucher) : InvoiceTotals :=
  invoiceTotals (processItems now items).1 (fetched.map fetchDetails)

/-- The C1 invariant on a returned invoice: the total equals the subtotal
plus every populated tax amount, and the same-jurisdiction fields and the
cross-jurisdiction field are not both populated. -/
def invariantHolds (i : InvoiceTotals) : Prop :=
  i.totalAmount =
    i.subTotal + i.cgstAmount.getD 0 + i.sgstAmount.getD 0 + i.igstAmount.getD 0
  ∧ ¬((i.cgstAmount ≠ none ∨ i.sgstAmount ≠ none) ∧ i.igstAmount ≠ none)

instance (i : InvoiceTotals) : Decidable (invariantHolds i) := by
  unfold invariantHolds
  infer_instance

/-! ## Amount-in-words rendering (`numberToWords`)

Embeds `src/types/index.ts` lines 119-144. The inner `inWords` recursion
is written with a fuel argument (`fuel = n + 1` always suffices: every
recursive call strictly decreases `n`, and the function is only consulted
on the fuel-positive branch). -/

/-- The `a` lookup table of line 120. -/
def onesWords : List String :=
  ["", "one", "two", "three", "four", "five", "six", "seven", "eight", "nine",
   "ten", "eleven", "twelve", "thirteen", "fourteen", "fifteen", "sixteen",
   "seventeen", "eighteen", "nineteen"]

/-- The `b` lookup table of line 121. -/
def tensWords : List String :=
  ["", "", "twenty", "thirty", "forty", "fifty", "sixty", "seventy", "eighty", "ninety"]

/-- The fallback text of line 132. -/
def tooLargeMsg : String :=
  "Number too large to convert for this simple function"

/-- The `inWords` recursion of lines 123-133 on non-negative inputs,
structural on the fuel. -/
def inWordsGo : Nat → Nat → String
  | 0, _ => ""
  | fuel + 1, n =>
    if n < 20 then onesWords.getD n ""
    else if n < 100 then
      let digit := n % 10
      tensWords.getD (n / 10) "" ++
        (if digit ≠ 0 then "-" ++ onesWords.getD digit "" else "")
    else if n < 1000 then
      onesWords.getD (n / 100) "" ++ " hundred" ++
        (if n % 100 = 0 then "" else " and " ++ inWordsGo fuel (n % 100))
    else if n < 100000 then
      inWordsGo fuel (n / 1000) ++ " thousand" ++
        (if n % 1000 = 0 then "" else " " ++ inWordsGo fuel (n % 1000))
    else if n < 10000000 then
      inWordsGo fuel (n / 100000) ++ " lakh" ++
        (if n % 100000 = 0 then "" else " " ++ inWordsGo fuel (n % 100000))
    else tooLargeMsg

/-- `inWords` on an integer, covering the `n < 0` branch of line 124. -/
def inWordsZ (n : ℤ) : String :=
  if n < 0 then "minus " ++ inWordsGo (n.natAbs + 1) n.natAbs
  else inWordsGo (n.toNat + 1) n.toNat

/-- JavaScript `Math.round`: round half toward positive infinity. -/
def jsRound (q : ℚ) : ℤ := ⌊q + 1 / 2⌋

/-- JavaScript `num % 1`: the remainder after truncation toward zero. -/
def jsMod1 (q : ℚ) : ℚ :=
  q - (if 0 ≤ q then (⌊q⌋ : ℚ) else (⌈q⌉ : ℚ))

/-- Line 139: `result.charAt(0).toUpperCase() + result.slice(1)`. -/
def capitalizeJS (s : String) : String :=
  match s.data with
  | [] => s
  | c :: cs => ⟨c.toUpper :: cs⟩

/-- `numberToWords` of `src/types/index.ts` lines 119-144: `result` is
`inWords(Math.floor(num))`, `decimalPart` is the rounded two-digit
fraction, the first character is upper-cased, ` and <words> Paise` is
appended when the decimal part is positive, and ` Only` closes the
string (the `if (num === 0) return 'Zero'` early exit comes first). -/
def numberToWords (num : ℚ) : String :=
  if num = 0 then "Zero"
  else
    (if 0 < jsRound (jsMod1 num * 100) then
      capitalizeJS (inWordsZ ⌊num⌋) ++ " and " ++
        inWordsZ (jsRound (jsMod1 num * 100)) ++ " Paise"
     else capitalizeJS (inWordsZ ⌊num⌋)) ++ " Only"

/-! ## Supporting lemmas -/

theorem processGo_map_amount (now : Nat) (items : List InvoiceItemInput) :
    ∀ i, (processGo now i items).map (·.amount) =
      items.map (fun it => it.quantity * it.rate) := by
  induction items with
  | nil => intro i; rfl
  | cons it rest ih => intro i; simp [processGo, mkProcessedItem, ih]

theorem foldl_add_eq_sum (items : List InvoiceItemInput) :
    ∀ a : ℚ, items.foldl (fun acc it => acc + it.quantity * it.rate) a =
      a + (items.map (fun it => it.quantity * it.rate)).sum := by
  induction items with
  | nil => intro a; simp
  | cons it rest ih => intro a; simp [ih]; ring

/-! ## C6 -/

/-- C6 (confirmed): the subtotal computed by `generateNewInvoice` equals
the sum of `quantity * rate` over the submitted line items, and each
processed item's `amount` equals its own `quantity * rate` (item `i` of
the output corresponding to item `i` of the input). -/
theorem subTotal_eq_sum_of_amounts (now : Nat) (items : List InvoiceItemInput) :
    (processItems now items).1 = (items.map (fun it => it.quantity * it.rate)).sum
    ∧ (processItems now items).2.map (·.amount) =
        items.map (fun it => it.quantity * it.rate) := by
  constructor
  · simpa using foldl_add_eq_sum items 0
  · exact processGo_map_amount now items 0

/-! ## C9 -/

/-- C9 (confirmed): `findCustomerByName` always sets `creditAccount` to
the empty string (tally-api.ts line 162), so `generateNewInvoice`'s
`customer.creditAccount || 'Sales'` (line 245) always resolves to the
default `Sales` ledger for a looked-up customer: every accounting
allocation of the built voucher posts to `Sales`. -/
theorem creditAccount_always_empty (rec : LedgerRec) (companyName : String) :
    (findCustomerParse rec companyName).creditAccount = ""
    ∧ salesLedgerName (findCustomerParse rec companyName) = "Sales" := by
  constructor
  · rfl
  · rfl

/-! ## C2 -/

/-- C2 counterexample: the claim says that whenever the buyer code
differs from the seller code the calculation yields the single
cross-jurisdiction component `subtotal * rate`. The blank buyer code `""`
differs from the seller code `"MH"`, yet part_001's calculation (the
case-insensitive variant the claim describes) yields the split
components `9 + 9` on subtotal `100` and a zero cross-jurisdiction
component, not a single component of `18`. -/
theorem taxCalc_blank_not_single : ("" : String) ≠ supplierState
    ∧ (taxCalcV1 100 "").igstAmount = 0
    ∧ (taxCalcV1 100 "").cgstAmount = 9
    ∧ (taxCalcV1 100 "").sgstAmount = 9
    ∧ (taxCalcV1 100 "").igstAmount ≠ 100 * gstRate := by
  refine ⟨by decide, ?_, ?_, ?_, ?_⟩ <;>
    norm_num [taxCalcV1, isInterStateV1, gstRate, supplierState, toUpperStr]

/-- C2 (corrected): for the case-insensitive tax calculation of part_001
at the fixed 18% rate, (a) when the buyer code equals the seller code
`"MH"` case-insensitively, or is blank, the outcome is two equal
components each `subtotal * rate / 2` summing to `subtotal * rate` with no
cross-jurisdiction component; (b) when the buyer code is non-blank and
differs case-insensitively, the outcome is a single cross-jurisdiction
component `subtotal * rate` with no same-jurisdiction components; in both
cases the total is `subtotal * (1 + rate)`. (The original claim's
"codes differ" case is false for the blank code, which the code treats as
same-jurisdiction.) -/
theorem taxCalcV1_cases (sub : ℚ) (st : String) (hsub : 0 ≤ sub) :
    (toUpperStr st = "MH" ∨ st = "" →
      (taxCalcV1 sub st).cgstAmount = sub * (gstRate / 2)
      ∧ (taxCalcV1 sub st).sgstAmount = sub * (gstRate / 2)
      ∧ (taxCalcV1 sub st).cgstAmount + (taxCalcV1 sub st).sgstAmount = sub * gstRate
      ∧ (taxCalcV1 sub st).igstAmount = 0
      ∧ (taxCalcV1 sub st).totalAmount = sub * (1 + gstRate))
    ∧ (st ≠ "" → toUpperStr st ≠ "MH" →
      (taxCalcV1 sub st).igstAmount = sub * gstRate
      ∧ (taxCalcV1 sub st).cgstAmount = 0
      ∧ (taxCalcV1 sub st).sgstAmount = 0
      ∧ (taxCalcV1 sub st).totalAmount = sub * (1 + gstRate)) := by
  have hMH : toUpperStr supplierState = "MH" := rfl
  constructor
  · intro h
    have hinter : isInterStateV1 st = false := by
      rcases h with h | h
      · simp [isInterStateV1, hMH, h]
      · simp [isInterStateV1, h]
    refine ⟨?_, ?_, ?_, ?_, ?_⟩ <;> simp [taxCalcV1, hinter] <;> ring
  · intro h1 h2
    have hinter : isInterStateV1 st = true := by
      simp [isInterStateV1, hMH, h1, h2]
    refine ⟨?_, ?_, ?_, ?_⟩ <;> simp [taxCalcV1, hinter] <;> ring

/-- C2 witness: the spec's own scenario, subtotal 1000 in the seller
state: components `90` and `90`, total `1180`. -/
theorem taxCalcV1_cases_witness :
    (taxCalcV1 1000 "MH").cgstAmount = 90
    ∧ (taxCalcV1 1000 "MH").sgstAmount = 90
    ∧ (taxCalcV1 1000 "MH").totalAmount = 1180 := by
  have h := (taxCalcV1_cases 1000 "MH" (by norm_num)).1 (Or.inl (by decide))
  refine ⟨?_, ?_, ?_⟩
  · rw [h.1]; norm_num [gstRate]
  · rw [h.2.1]; norm_num [gstRate]
  · rw [h.2.2.2.2]; norm_num [gstRate]

/-! ## C4 -/

/-- C4 counterexample: the claim says a blank buyer jurisdiction code is
treated as different-jurisdiction and yields the single full-rate
component. On part_001's calculation, at subtotal 200 and a blank buyer
code the cross-jurisdiction amount is `0`, not `200 * 18% = 36`, and the
split components are populated instead. -/
theorem taxCalc_blank_treated_as_same :
    (taxCalcV1 200 "").igstAmount = 0
    ∧ (taxCalcV1 200 "").cgstAmount = 18
    ∧ (taxCalcV1 200 "").igstAmount ≠ 200 * gstRate := by
  refine ⟨?_, ?_, ?_⟩ <;>
    norm_num [taxCalcV1, isInterStateV1, gstRate, toUpperStr]

/-- C4 (corrected): a blank buyer jurisdiction code is treated as SAME
jurisdiction by the part_001 calculation (case-insensitive variant): it
yields the split components `subtotal * rate / 2` each and no
cross-jurisdiction component. Only the earlier part_002 calculation
(strict-equality variant) treats blank as different jurisdiction with
the single full-rate component the claim describes. -/
theorem taxCalc_blank_behaviour (sub : ℚ) :
    (taxCalcV1 sub "").cgstAmount = sub * (gstRate / 2)
    ∧ (taxCalcV1 sub "").sgstAmount = sub * (gstRate / 2)
    ∧ (taxCalcV1 sub "").igstAmount = 0
    ∧ (taxCalcV2 sub "").igstAmount = sub * gstRate
    ∧ (taxCalcV2 sub "").cgstAmount = 0
    ∧ (taxCalcV2 sub "").sgstAmount = 0 := by
  have h1 : isInterStateV1 "" = false := by decide
  have h2 : (("" : String) == supplierState) = false := by decide
  refine ⟨?_, ?_, ?_, ?_, ?_, ?_⟩ <;> simp [taxCalcV1, taxCalcV2, h1, h2]

/-! ## C3 -/

/-- C3 counterexample: on a response carrying two error-marker nodes
(`LINEERROR` with text `Alpha` followed by `ERROR` with text `Beta`), the
operation's failure message is `Tally error: Alpha`; it contains neither
the second marker's text `Beta` nor the concatenation `Alpha, Beta`, so
it does not contain the concatenated text contents of all error-marker
nodes as the claim requires. -/
theorem sendTally_drops_later_errors :
    sendTallyCheck [⟨"LINEERROR", "Alpha"⟩, ⟨"ERROR", "Beta"⟩] = .error "Tally error: Alpha"
    ∧ strContains "Tally error: Alpha" "Beta" = false
    ∧ strContains "Tally error: Alpha" "Alpha, Beta" = false := by
  exact ⟨rfl, rfl, rfl⟩

/-- C3 (corrected): a response containing any error-marker node, even
alongside a created-marker `"1"`, makes the operation fail before the
created-marker is ever consulted, and the failure message contains the
text content of the FIRST error-marker node in document order (the
`querySelector` result); the texts of any later error-marker nodes are
not included. -/
theorem sendTally_error_contains_first (nodes : List XNode) (e : XNode)
    (h : sendTallyErr nodes = some e) :
    sendTallyCheck nodes = .error ("Tally error: " ++ e.text)
    ∧ strContains ("Tally error: " ++ e.text) e.text = true := by
  constructor
  · simp [sendTallyCheck, h]
  · exact strContains_append_right "Tally error: " e.text

/-- C3 witness: the spec's own scenario — a `LINEERROR` node with text
`Ledger does not exist` makes the operation fail with a message
containing that text. -/
theorem sendTally_error_contains_first_witness :
    sendTallyCheck [⟨"LINEERROR", "Ledger does not exist"⟩]
      = .error ("Tally error: " ++ "Ledger does not exist")
    ∧ strContains ("Tally error: " ++ "Ledger does not exist") "Ledger does not exist" = true :=
  sendTally_error_contains_first [⟨"LINEERROR", "Ledger does not exist"⟩]
    ⟨"LINEERROR", "Ledger does not exist"⟩ rfl

/-! ## C5 -/

/-- C5 counterexample: a response document containing a created-marker
`CREATED` node with text `"1"`, a `VOUCHERNUMBER` node with text
`API-123`, and no error-marker node, on which parsing nevertheless fails:
the `querySelector('CREATED, ALTERED')` probe finds an `ALTERED` node
with text `"0"` first in document order, so the operation rejects the
response instead of succeeding with number `API-123`. -/
theorem parseInvoice_rejects_despite_created :
    ([⟨"ALTERED", "0"⟩, ⟨"CREATED", "1"⟩, ⟨"VOUCHERNUMBER", "API-123"⟩] :
        List XNode).find? (fun n => n.tag == "CREATED" && n.text == "1") =
      some ⟨"CREATED", "1"⟩
    ∧ sendTallyErr [⟨"ALTERED", "0"⟩, ⟨"CREATED", "1"⟩, ⟨"VOUCHERNUMBER", "API-123"⟩] = none
    ∧ parseInvoiceResp [⟨"ALTERED", "0"⟩, ⟨"CREATED", "1"⟩, ⟨"VOUCHERNUMBER", "API-123"⟩]
        "API-999"
      = .error "Tally failed to generate invoice. No details provided. Check Tally.imp log for more info." := by
  exact ⟨rfl, rfl, rfl⟩

/-- C5 (corrected): for every invoice-creation response with no
error-marker node whose FIRST `CREATED`/`ALTERED` node (document order)
has text `"1"`, parsing succeeds; the extracted invoice number is the
trimmed text of the first `VOUCHERNUMBER` node when that trims
non-empty, and the client's provisional number when the node is absent
or trims to the empty string. -/
theorem parseInvoice_success_number (nodes : List XNode) (prov : String) (c : XNode)
    (hne : sendTallyErr nodes = none)
    (hc : nodes.find? (fun n => n.tag == "CREATED" || n.tag == "ALTERED") = some c)
    (h1 : c.text = "1") :
    parseInvoiceResp nodes prov =
      .ok (match nodes.find? (fun n => n.tag == "VOUCHERNUMBER") with
           | some nn => if jsTrim nn.text = "" then prov else jsTrim nn.text
           | none => prov) := by
  simp [parseInvoiceResp, sendTallyCheck, hne, hc, h1]

/-- C5 witness: the spec's own scenario —
`<CREATED>1</CREATED><VOUCHERNUMBER>API-123</VOUCHERNUMBER>` parses as
success with number `API-123`. -/
theorem parseInvoice_success_number_witness :
    parseInvoiceResp [⟨"CREATED", "1"⟩, ⟨"VOUCHERNUMBER", "API-123"⟩] "API-FALLBACK"
      = .ok "API-123" := by
  have h := parseInvoice_success_number
    [⟨"CREATED", "1"⟩, ⟨"VOUCHERNUMBER", "API-123"⟩] "API-FALLBACK"
    ⟨"CREATED", "1"⟩ rfl rfl rfl
  exact h

/-! ## C7 -/

/-- C7 counterexample: the claim says the customer's state falls back to
the fourth address line only when the explicit state field is ABSENT. In
this record the `STATENAME` node is present (with blank text) and the
code still falls back: the parsed state is the fourth address line `D`,
not the present field's (empty) trimmed content. -/
theorem findCustomer_state_blank_fallback :
    ({ statename := some "", address := some "A\nB\nC\nD" } : LedgerRec).statename ≠ none
    ∧ (findCustomerParse { statename := some "", address := some "A\nB\nC\nD" } "Co").state = "D"
    ∧ (findCustomerParse { statename := some "", address := some "A\nB\nC\nD" } "Co").state
        ≠ getText (some "") := by
  refine ⟨by decide, rfl, by decide⟩

/-- C7 (corrected): the multi-line address is split on newlines, trimmed
and blank lines dropped, and assigned positionally: `addressLine1` is the
first line, `addressLine2` the second, `city` the third; the state is the
explicit state field's trimmed text when that is non-blank, and falls
back to the fourth address line when the state field is absent OR trims
to blank (the original claim's "only when it is absent" is too strong). -/
theorem findCustomer_positional_address (rec : LedgerRec) (companyName : String) :
    (findCustomerParse rec companyName).addressLine1 = (addressLines rec).getD 0 ""
    ∧ (findCustomerParse rec companyName).addressLine2 = some ((addressLines rec).getD 1 "")
    ∧ (findCustomerParse rec companyName).city = (addressLines rec).getD 2 ""
    ∧ (findCustomerParse rec companyName).state =
        (if getText rec.statename = "" then (addressLines rec).getD 3 ""
         else getText rec.statename) := by
  exact ⟨rfl, rfl, rfl, rfl⟩

/-! ## C8 -/

/-- C8 counterexample: a company-listing response in which no
recognizable company-name shape is found and no `<NOCONNECTION` marker
is present, yet the operation fails (with the gateway's Tally-error
failure) instead of returning the empty list: the document carries an
`ERROR` marker node, which `sendTallyRequest` rejects before the company
extraction runs. -/
theorem getCompanies_error_marker_not_empty :
    getCompanies { nodes := [⟨"ENVELOPE", "Oops"⟩, ⟨"ERROR", "Oops"⟩],
                   companyNodes := [],
                   raw := "<ENVELOPE><ERROR>Oops</ERROR></ENVELOPE>" }
      = .error "Tally error: Oops"
    ∧ strContains "<ENVELOPE><ERROR>Oops</ERROR></ENVELOPE>" "<NOCONNECTION" = false
    ∧ extractCompanies { nodes := [⟨"ENVELOPE", "Oops"⟩, ⟨"ERROR", "Oops"⟩],
                         companyNodes := [],
                         raw := "<ENVELOPE><ERROR>Oops</ERROR></ENVELOPE>" } = [] := by
  exact ⟨rfl, rfl, rfl⟩

/-- C8 (corrected): for every company-listing response containing no
error-marker node, when no recognizable company-name shape is found (no
`COMPANYNAME`/`NAME` node with non-blank text, and no `COMPANY` node with
a `NAME` sub-node), the operation returns the empty list, except that it
fails with the not-connected error exactly when the serialized response
contains `<NOCONNECTION`. (The original claim omitted the error-marker
exclusion: a marker-bearing response fails in the gateway first.) -/
theorem getCompanies_empty_or_notconnected (d : CompaniesDoc)
    (herr : sendTallyErr d.nodes = none)
    (hflat : ∀ n ∈ d.nodes, (n.tag = "COMPANYNAME" ∨ n.tag = "NAME") → jsTrim n.text = "")
    (hnested : ∀ cn ∈ d.companyNodes, cn.nameSub = none) :
    (strContains d.raw "<NOCONNECTION" = true → getCompanies d = .error notConnectedMsg)
    ∧ (strContains d.raw "<NOCONNECTION" = false → getCompanies d = .ok []) := by
  have hempty : extractCompanies d = [] := by
    unfold extractCompanies
    by_cases hb : ((d.nodes.filter
        (fun n => n.tag == "COMPANYNAME" || n.tag == "NAME")).isEmpty
        && !d.companyNodes.isEmpty) = true
    · simp only [hb, if_true]
      refine List.filterMap_eq_nil_iff.mpr (fun cn hcn => ?_)
      rw [hnested cn hcn]
      rfl
    · simp only [hb, if_false, Bool.not_eq_true] at hb ⊢
      rw [if_neg (by simp [hb])]
      refine List.filterMap_eq_nil_iff.mpr (fun n hn => ?_)
      have hmem := List.mem_filter.mp hn
      have htag : n.tag = "COMPANYNAME" ∨ n.tag = "NAME" := by
        rcases Bool.or_eq_true_iff.mp hmem.2 with h | h
        · exact Or.inl (by simpa using h)
        · exact Or.inr (by simpa using h)
      simp [hflat n hmem.1 htag]
  constructor
  · intro h
    simp [getCompanies, sendTallyCheck, herr, hempty, h]
  · intro h
    simp [getCompanies, sendTallyCheck, herr, hempty, h]

/-- C8 witness: a response with a lone unrecognized node and a
`<NOCONNECTION` marker in its serialized text produces the not-connected
failure; the marker-free implication is vacuous here. -/
theorem getCompanies_empty_or_notconnected_witness :
    (strContains "<NOCONNECTION/>" "<NOCONNECTION" = true →
      getCompanies { nodes := [⟨"RESPONSE", ""⟩], companyNodes := [], raw := "<NOCONNECTION/>" }
        = .error notConnectedMsg)
    ∧ (strContains "<NOCONNECTION/>" "<NOCONNECTION" = false →
      getCompanies { nodes := [⟨"RESPONSE", ""⟩], companyNodes := [], raw := "<NOCONNECTION/>" }
        = .ok []) :=
  getCompanies_empty_or_notconnected
    { nodes := [⟨"RESPONSE", ""⟩], companyNodes := [], raw := "<NOCONNECTION/>" }
    rfl (by decide) (by decide)

/-! ## C10 -/

theorem inWordsGo_large (fuel n : Nat) (h : 10000000 ≤ n) :
    inWordsGo (fuel + 1) n = tooLargeMsg := by
  simp only [inWordsGo]
  rw [if_neg (by omega), if_neg (by omega), if_neg (by omega),
    if_neg (by omega), if_neg (by omega)]

theorem inWordsZ_large (n : ℤ) (h : 10000000 ≤ n) :
    inWordsZ n = tooLargeMsg := by
  unfold inWordsZ
  rw [if_neg (by omega)]
  exact inWordsGo_large n.toNat n.toNat (by omega)

theorem capitalizeJS_tooLarge : capitalizeJS tooLargeMsg = tooLargeMsg := rfl

theorem isInfixL_pre_mid (a b pat : List Char) :
    isInfixL pat (a ++ (b ++ pat)) = true := by
  have h := isInfixL_append_pre (a ++ b) pat
  simpa [List.append_assoc] using h

theorem isInfixL_pre_mid2 (a b c pat : List Char) :
    isInfixL pat (a ++ (b ++ (c ++ pat))) = true := by
  have h := isInfixL_append_pre (a ++ (b ++ c)) pat
  simpa [List.append_assoc] using h

/-- C10 counterexample: an amount of exactly `0` is below the one-crore
bound, yet `numberToWords 0` returns `"Zero"`, which does not end in
`"Only"` as the claim requires of below-bound amounts. -/
theorem numberToWords_zero_no_only :
    numberToWords 0 = "Zero" ∧ ¬∃ s, numberToWords 0 = s ++ " Only" := by
  constructor
  · rfl
  · rintro ⟨s, hs⟩
    have h0 : numberToWords 0 = "Zero" := rfl
    rw [h0] at hs
    have hlen : ("Zero").data.length = (s ++ " Only").data.length := by rw [hs]
    rw [string_data_append, List.length_append] at hlen
    have h4 : ("Zero").data.length = 4 := rfl
    have h5 : (" Only").data.length = 5 := rfl
    omega

/-- C10 (corrected): for every amount whose integer part (floor) is at
least 10,000,000 the rendering contains the literal fallback string; a
NONZERO amount always renders as a string ending in `" Only"`, with
`" Paise Only"` at the end when the rounded two-digit fractional part is
positive; but an amount of exactly zero renders as `"Zero"` (no
`"Only"`), which the original claim's below-bound clause overlooks. -/
theorem numberToWords_spec (q : ℚ) :
    (10000000 ≤ ⌊q⌋ → strContains (numberToWords q) tooLargeMsg = true)
    ∧ (q ≠ 0 → ∃ s, numberToWords q = s ++ " Only")
    ∧ (q = 0 → numberToWords q = "Zero")
    ∧ (q ≠ 0 → 0 < jsRound (jsMod1 q * 100) →
        strContains (numberToWords q) " Paise Only" = true) := by
  refine ⟨?_, ?_, ?_, ?_⟩
  · intro h
    have hq : (10000000 : ℚ) ≤ q := by exact_mod_cast Int.le_floor.mp h
    have hq0 : q ≠ 0 := by intro h0; rw [h0] at hq; norm_num at hq
    unfold numberToWords
    rw [if_neg hq0, inWordsZ_large _ h, capitalizeJS_tooLarge]
    by_cases hd : 0 < jsRound (jsMod1 q * 100)
    · rw [if_pos hd]
      simp only [strContains, string_data_append, List.append_assoc]
      exact isInfixL_append_left _ _
    · rw [if_neg hd]
      simp only [strContains, string_data_append]
      exact isInfixL_append_left _ _
  · intro hq0
    unfold numberToWords
    rw [if_neg hq0]
    exact ⟨_, rfl⟩
  · intro h0
    rw [h0]
    rfl
  · intro hq0 hd
    unfold numberToWords
    rw [if_neg hq0, if_pos hd]
    have hfuse : (" Paise").data ++ (" Only").data = (" Paise Only").data := rfl
    simp only [strContains, string_data_append, List.append_assoc, hfuse]
    exact isInfixL_pre_mid2 _ _ _ _

/-- C10 witness: at the bound itself, `numberToWords 10000000` contains
the fallback text and still ends in `" Only"`. -/
theorem numberToWords_spec_witness :
    strContains (numberToWords 10000000) tooLargeMsg = true
    ∧ (∃ s, numberToWords 10000000 = s ++ " Only") :=
  ⟨(numberToWords_spec 10000000).1 (by norm_num),
   (numberToWords_spec 10000000).2.1 (by norm_num)⟩

/-! ## C1 -/

theorem foldl_taxStep_cgstA_none (st : ℚ) (l : List LEntry) :
    ∀ acc : TaxAcc, (l.foldl (taxStep st) acc).cgstA = none ↔
      acc.cgstA = none ∧ ∀ e ∈ l, kindOf e.name ≠ some TaxKind.cgst := by
  induction l with
  | nil => intro acc; simp
  | cons e rest ih =>
    intro acc
    rw [List.foldl_cons, ih]
    rcases hk : kindOf e.name with _ | k
    · simp [taxStep, hk]
    · cases k
      · simp [taxStep, hk]
      · simp [taxStep, hk]
      · simp [taxStep, hk]

theorem foldl_taxStep_sgstA_none (st : ℚ) (l : List LEntry) :
    ∀ acc : TaxAcc, (l.foldl (taxStep st) acc).sgstA = none ↔
      acc.sgstA = none ∧ ∀ e ∈ l, kindOf e.name ≠ some TaxKind.sgst := by
  induction l with
  | nil => intro acc; simp
  | cons e rest ih =>
    intro acc
    rw [List.foldl_cons, ih]
    rcases hk : kindOf e.name with _ | k
    · simp [taxStep, hk]
    · cases k
      · simp [taxStep, hk]
      · simp [taxStep, hk]
      · simp [taxStep, hk]

theorem foldl_taxStep_igstA_none (st : ℚ) (l : List LEntry) :
    ∀ acc : TaxAcc, (l.foldl (taxStep st) acc).igstA = none ↔
      acc.igstA = none ∧ ∀ e ∈ l, kindOf e.name ≠ some TaxKind.igst := by
  induction l with
  | nil => intro acc; simp
  | cons e rest ih =>
    intro acc
    rw [List.foldl_cons, ih]
    rcases hk : kindOf e.name with _ | k
    · simp [taxStep, hk]
    · cases k
      · simp [taxStep, hk]
      · simp [taxStep, hk]
      · simp [taxStep, hk]

theorem foldl_taxStep_nonneg (st : ℚ) (l : List LEntry) :
    ∀ acc : TaxAcc, (∀ e ∈ l, 0 ≤ e.amount.getD 0) →
      0 ≤ acc.cgstA.getD 0 → 0 ≤ acc.sgstA.getD 0 → 0 ≤ acc.igstA.getD 0 →
      0 ≤ (l.foldl (taxStep st) acc).cgstA.getD 0
      ∧ 0 ≤ (l.foldl (taxStep st) acc).sgstA.getD 0
      ∧ 0 ≤ (l.foldl (taxStep st) acc).igstA.getD 0 := by
  induction l with
  | nil => intro acc _ h1 h2 h3; simpa using ⟨h1, h2, h3⟩
  | cons e rest ih =>
    intro acc hl h1 h2 h3
    have he : 0 ≤ e.amount.getD 0 := hl e (List.mem_cons_self e rest)
    have hrest : ∀ e₂ ∈ rest, 0 ≤ e₂.amount.getD 0 :=
      fun e₂ h => hl e₂ (List.mem_cons_of_mem e h)
    rw [List.foldl_cons]
    rcases hk : kindOf e.name with _ | k
    · exact ih (taxStep st acc e) hrest
        (by simp [taxStep, hk, h1]) (by simp [taxStep, hk, h2]) (by simp [taxStep, hk, h3])
    · cases k
      · exact ih (taxStep st acc e) hrest
          (by simp [taxStep, hk]; exact add_nonneg h1 he)
          (by simp [taxStep, hk, h2]) (by simp [taxStep, hk, h3])
      · exact ih (taxStep st acc e) hrest
          (by simp [taxStep, hk, h1])
          (by simp [taxStep, hk]; exact add_nonneg h2 he)
          (by simp [taxStep, hk, h3])
      · exact ih (taxStep st acc e) hrest
          (by simp [taxStep, hk, h1]) (by simp [taxStep, hk, h2])
          (by simp [taxStep, hk]; exact add_nonneg h3 he)

theorem fdTaxes_nonneg (v : ParsedVoucher)
    (h3 : ∀ e ∈ v.ledgerEntries, 0 ≤ e.amount.getD 0) : 0 ≤ fdTaxes v := by
  have hnn := foldl_taxStep_nonneg (invSubTotal v) v.ledgerEntries {} h3
    (le_refl 0) (le_refl 0) (le_refl 0)
  exact add_nonneg (add_nonneg hnn.1 hnn.2.1) hnn.2.2

/-- C1 counterexample: a concrete run of `generateNewInvoice` in which
the Tally response fetched back for the created voucher carries both a
`CGST`-named and an `IGST`-named ledger entry. The returned invoice then
has `cgstAmount = some 9` AND `igstAmount = some 18` populated together,
so the same-jurisdiction / cross-jurisdiction mutual-exclusion invariant
fails (the parser buckets whatever entries the response names). -/
theorem invoice_mixes_tax_kinds :
    (generateInvoiceTotals 0 [{ itemName := "Widget", quantity := 10, rate := 10, unit := "NOS" }]
        (some { partyLedgerName := some "Acme",
                inventoryAmounts := [some 100],
                ledgerEntries := [{ name := some "CGST", amount := some 9 },
                                  { name := some "IGST", amount := some 18 }] })).cgstAmount
      = some 9
    ∧ (generateInvoiceTotals 0 [{ itemName := "Widget", quantity := 10, rate := 10, unit := "NOS" }]
        (some { partyLedgerName := some "Acme",
                inventoryAmounts := [some 100],
                ledgerEntries := [{ name := some "CGST", amount := some 9 },
                                  { name := some "IGST", amount := some 18 }] })).igstAmount
      = some 18
    ∧ ¬ invariantHolds
        (generateInvoiceTotals 0 [{ itemName := "Widget", quantity := 10, rate := 10, unit := "NOS" }]
          (some { partyLedgerName := some "Acme",
                  inventoryAmounts := [some 100],
                  ledgerEntries := [{ name := some "CGST", amount := some 9 },
                                    { name := some "IGST", amount := some 18 }] })) := by
  have h1 : kindOf (some "CGST") = some TaxKind.cgst := rfl
  have h2 : kindOf (some "IGST") = some TaxKind.igst := rfl
  have hg : generateInvoiceTotals 0
      [{ itemName := "Widget", quantity := 10, rate := 10, unit := "NOS" }]
      (some { partyLedgerName := some "Acme",
              inventoryAmounts := [some 100],
              ledgerEntries := [{ name := some "CGST", amount := some 9 },
                                { name := some "IGST", amount := some 18 }] })
      = { subTotal := 100, totalAmount := 127, cgstAmount := some 9, sgstAmount := none,
          igstAmount := some 18, cgstRate := some 9, sgstRate := none, igstRate := some 18 } := by
    simp [generateInvoiceTotals, invoiceTotals, processItems, jsOr, fetchDetails, fdSubTotal,
      fdTotal, fdTaxes, fdAcc, partyTotal, invSubTotal, taxFold, taxStep, rateUpd, toFixed2,
      h1, h2]
    norm_num
  rw [hg]
  refine ⟨rfl, rfl, ?_⟩
  simp [invariantHolds]

/-- C1 (corrected): the invariant (total = subtotal + populated taxes;
same- and cross-jurisdiction tax fields never both populated) does NOT
hold of every invoice returned by `generateNewInvoice`; it holds (a)
unconditionally when the post-creation detail fetch yields no voucher,
and (b) when the fetched voucher has no party-ledger total, a positive
inventory subtotal, non-negative parsed tax amounts, and ledger-entry
names that do not mix the cross-jurisdiction bucket with the
same-jurisdiction buckets — a fetched response naming both kinds
populates both fields together and breaks the invariant. -/
theorem invoice_invariant_cases (now : Nat) (items : List InvoiceItemInput) (v : ParsedVoucher)
    (h1 : partyTotal v = 0)
    (h2 : 0 < invSubTotal v)
    (h3 : ∀ e ∈ v.ledgerEntries, 0 ≤ e.amount.getD 0)
    (h4 : (∀ e ∈ v.ledgerEntries, kindOf e.name ≠ some TaxKind.igst)
        ∨ (∀ e ∈ v.ledgerEntries, kindOf e.name ≠ some TaxKind.cgst
            ∧ kindOf e.name ≠ some TaxKind.sgst)) :
    invariantHolds (generateInvoiceTotals now items (some v))
    ∧ invariantHolds (generateInvoiceTotals now items none) := by
  have hst0 : invSubTotal v ≠ 0 := ne_of_gt h2
  have htot : fdTotal v = invSubTotal v + fdTaxes v := by
    unfold fdTotal
    rw [if_pos ⟨h1, h2⟩]
  have hsubt : fdSubTotal v = invSubTotal v := by
    unfold fdSubTotal
    rw [if_neg (fun h => hst0 h.1)]
  have htaxes0 : 0 ≤ fdTaxes v := fdTaxes_nonneg v h3
  have htotpos : 0 < fdTotal v := by
    rw [htot]
    exact add_pos_of_pos_of_nonneg h2 htaxes0
  have htotne : fdTotal v ≠ 0 := ne_of_gt htotpos
  constructor
  · constructor
    · have e1 : (generateInvoiceTotals now items (some v)).totalAmount = fdTotal v := by
        simp [generateInvoiceTotals, invoiceTotals, jsOr, fetchDetails, htotne]
      have e2 : (generateInvoiceTotals now items (some v)).subTotal = invSubTotal v := by
        simp [generateInvoiceTotals, invoiceTotals, jsOr, fetchDetails, hsubt, hst0]
      rw [e1, e2, htot]
      show invSubTotal v + fdTaxes v =
        invSubTotal v + ((fdAcc v).cgstA).getD 0 + ((fdAcc v).sgstA).getD 0
          + ((fdAcc v).igstA).getD 0
      unfold fdTaxes
      ring
    · cases h4 with
      | inl h =>
        have hig : (fdAcc v).igstA = none := by
          unfold fdAcc taxFold
          exact (foldl_taxStep_igstA_none (invSubTotal v) v.ledgerEntries {}).mpr ⟨rfl, h⟩
        simp [generateInvoiceTotals, invoiceTotals, fetchDetails, invariantHolds, hig]
      | inr h =>
        have hcg : (fdAcc v).cgstA = none := by
          unfold fdAcc taxFold
          exact (foldl_taxStep_cgstA_none (invSubTotal v) v.ledgerEntries {}).mpr
            ⟨rfl, fun e he => (h e he).1⟩
        have hsg : (fdAcc v).sgstA = none := by
          unfold fdAcc taxFold
          exact (foldl_taxStep_sgstA_none (invSubTotal v) v.ledgerEntries {}).mpr
            ⟨rfl, fun e he => (h e he).2⟩
        simp [generateInvoiceTotals, invoiceTotals, fetchDetails, invariantHolds, hcg, hsg]
  · constructor
    · simp [generateInvoiceTotals, invoiceTotals, jsOr]
    · simp [generateInvoiceTotals, invoiceTotals, invariantHolds]

/-- C1 witness: a fetched voucher with only the two same-jurisdiction
entries (`CGST` 9 and `SGST` 9 over an inventory subtotal of 50 — the
hypotheses of the amended statement hold) satisfies the invariant, as
does the fetch-failure path. -/
theorem invoice_invariant_cases_witness :
    invariantHolds (generateInvoiceTotals 0
      [{ itemName := "Widget", quantity := 5, rate := 10, unit := "NOS" }]
      (some { partyLedgerName := some "Acme",
              inventoryAmounts := [some 50],
              ledgerEntries := [{ name := some "CGST", amount := some 9 },
                                { name := some "SGST", amount := some 9 }] }))
    ∧ invariantHolds (generateInvoiceTotals 0
      [{ itemName := "Widget", quantity := 5, rate := 10, unit := "NOS" }] none) :=
  invoice_invariant_cases 0
    [{ itemName := "Widget", quantity := 5, rate := 10, unit := "NOS" }]
    { partyLedgerName := some "Acme",
      inventoryAmounts := [some 50],
      ledgerEntries := [{ name := some "CGST", amount := some 9 },
                        { name := some "SGST", amount := some 9 }] }
    rfl
    (by norm_num [invSubTotal])
    (by
      intro e he
      simp only [List.mem_cons, List.not_mem_nil, or_false] at he
      rcases he with h | h <;> simp [h])
    (Or.inl (by
      intro e he
      simp only [List.mem_cons, List.not_mem_nil, or_false] at he
      rcases he with h | h <;> simp [h] <;> decide))

end TallyExt
